import Mathlib

/-!
Shallow embedding of `clean_pdf.py` (pdf-cleaner): the blank-page classifier,
the `clean_pdf` rewrite loop with its failsafe, and the Ghostscript compressor
invoker, together with the quality checks of the calling layers (`app.py`
HTTP handler and the CLI in `clean_pdf.py`).
-/

set_option maxHeartbeats 1000000

namespace PdfCleaner

/-- Outcome of calling a Python method that may raise: the code catches broad
`Exception`, so we only record "returned a value" vs "raised". -/
inductive PyResult (α : Type) where
  | ok (val : α)
  | raised
deriving DecidableEq

/-- The `/XObject` entry of a page's `/Resources` dictionary as the code
observes it in `_has_xobject_images_or_forms`:
* `absent`: `/Resources` missing, the lookup raised, or `resources.get("/XObject")`
  returned `None` (all falsy, and a raised lookup is caught returning `False`);
* `dict n`: a dictionary object with `n` keys (`n = 0` is the falsy empty dict);
* `keysRaise`: a truthy indirect object on which `.keys()` raises. -/
inductive XObjEntry where
  | absent
  | dict (numKeys : Nat)
  | keysRaise
deriving DecidableEq

/-- One element of a page's contents, as seen by `_content_stream_bytes`:
`c.get_data()` may return bytes, return `None`, or raise. Bytes are modelled
as lists of naturals (byte values). -/
inductive StreamObj where
  | data (bs : List Nat)
  | noneData
  | raises
deriving DecidableEq

/-- Whether `get_data()` raises on this stream object. -/
def StreamObj.failsDecode : StreamObj → Bool
  | .raises => true
  | _ => false

/-- The value returned by `page.get_contents()`: `None`, a single stream
object, or a list of stream objects. -/
inductive ContentsVal where
  | noContents
  | single (c : StreamObj)
  | contentList (cs : List StreamObj)
deriving DecidableEq

/-- A PDF page as the classifier observes it: the result of
`page.extract_text()` (which may return a string, return `None`, or raise),
the `/XObject` resources entry, and the result of `page.get_contents()`
(which may also raise). Text is modelled as a list of characters. -/
structure Page where
  extractText : PyResult (Option (List Char))
  xobject : XObjEntry
  contents : PyResult ContentsVal
deriving DecidableEq

/-- ASCII whitespace characters stripped by Python's `str.strip()`
(space, tab, newline, carriage return, vertical tab, form feed); the model
restricts text to this whitespace alphabet. -/
def pyWsChar (c : Char) : Bool :=
  c = ' ' || c = '\t' || c = '\n' || c = '\r' || c = Char.ofNat 11 || c = Char.ofNat 12

/-- Byte values stripped by Python's `bytes.strip()`:
`b" \t\n\r\x0b\x0c"`. -/
def pyWsByte (b : Nat) : Bool :=
  b = 32 || b = 9 || b = 10 || b = 13 || b = 11 || b = 12

/-- Python's `.strip()`: remove leading and trailing elements satisfying
`ws`. -/
def pyStrip {α : Type} (ws : α → Bool) (l : List α) : List α :=
  ((l.dropWhile ws).reverse.dropWhile ws).reverse

/-- Model of `_safe_extract_text`: `page.extract_text() or ""`, with every exception
caught and turned into `""`. A `None` return (and an empty string, via
Python's `or`) also yields `""`. -/
def safe_extract_text (p : Page) : List Char :=
  match p.extractText with
  | .ok (some t) => t
  | .ok none => []
  | .raised => []

/-- Model of `_has_xobject_images_or_forms`: falsy `/XObject` → `False`; a dictionary
→ `len(xobj.keys()) > 0`; `.keys()` raising on a truthy object → `True`;
any outer exception → `False` (folded into `XObjEntry.absent`). -/
def has_xobject_images_or_forms (p : Page) : Bool :=
  match p.xobject with
  | .absent => false
  | .dict n => if n = 0 then false else decide (0 < n)
  | .keysRaise => true

/-- Payload of one stream: `c.get_data() or b""` under a `try`/`except` that yields `b""` (single
case) or skips the stream (list case); both reduce to the empty byte string
for a raising or `None`-returning stream. -/
def streamData : StreamObj → List Nat
  | .data bs => bs
  | .noneData => []
  | .raises => []

/-- Model of `_content_stream_bytes`: `None` contents or a raising `get_contents()`
give `b""`; a list of streams is concatenated left to right with raising
streams skipped; a single stream gives its data or `b""`. -/
def content_stream_bytes (p : Page) : List Nat :=
  match p.contents with
  | .raised => []
  | .ok .noContents => []
  | .ok (.contentList cs) => cs.foldl (fun d c => d ++ streamData c) []
  | .ok (.single c) => streamData c

/-- Model of `is_probably_blank_page`: the conservative layered cascade. The
source's locals `text`, `data` and `stripped` are inlined:
`text = _safe_extract_text(page).strip()`,
`data = _content_stream_bytes(page)`, `stripped = data.strip()`. -/
def is_probably_blank_page (p : Page) : Bool :=
  if pyStrip pyWsChar (safe_extract_text p) ≠ [] then false
  else if has_xobject_images_or_forms p then false
  else if content_stream_bytes p = [] then true
  else if (pyStrip pyWsByte (content_stream_bytes p)).length = 0 then true
  else if (pyStrip pyWsByte (content_stream_bytes p)).length < 30 then true
  else false

/-- The stats dictionary returned by `clean_pdf`. -/
structure CleanStats where
  total : Nat
  removed : Nat
  remaining : Nat
deriving DecidableEq

/-- The page loop of `clean_pdf`: returns the pages added to the writer,
the `removed` count and the `kept_pages` count. -/
def classifyPages : List Page → List Page × Nat × Nat
  | [] => ([], 0, 0)
  | p :: rest =>
    let r := classifyPages rest
    if is_probably_blank_page p then (r.1, r.2.1 + 1, r.2.2)
    else (p :: r.1, r.2.1, r.2.2 + 1)

/-- Model of `clean_pdf`: classify every page, apply the failsafe (if no page would be
kept while the input is non-empty, keep every original page with
`removed = 0`), and return the written pages with the stats. -/
def clean_pdf (pages : List Page) : List Page × CleanStats :=
  let total := pages.length
  let r := classifyPages pages
  if r.2.2 = 0 ∧ 0 < total then (pages, ⟨total, 0, total⟩)
  else (r.1, ⟨total, r.2.1, r.2.2⟩)

/-- The ordered candidate executable names probed by
`find_ghostscript_exe`. -/
def gs_candidates : List String := ["gs", "gswin64c", "gswin32c"]

/-- The loop of `find_ghostscript_exe`: return `shutil.which(c)` for the
first candidate `c` that resolves, else `None`. `which` models
`shutil.which` for the current execution search path. -/
def findFirstExe (which : String → Option String) : List String → Option String
  | [] => none
  | c :: rest =>
    match which c with
    | some path => some path
    | none => findFirstExe which rest

/-- Model of `find_ghostscript_exe`: probe `gs`, `gswin64c`, `gswin32c` in order on
the search path; first match wins. -/
def find_ghostscript_exe (which : String → Option String) : Option String :=
  findFirstExe which gs_candidates

/-- Outcome of `subprocess.run(cmd, capture_output=True, text=True,
timeout=...)`: either `TimeoutExpired` is raised (the child is killed by
`subprocess.run` itself), or the process completes with a return code and
captured stdout/stderr. -/
inductive RunOutcome where
  | timedOut
  | completed (returncode : Int) (stdout stderr : String)
deriving DecidableEq

/-- The environment a `compress_with_ghostscript` call runs in:
`shutil.which` and the behaviour of `subprocess.run` on a command with a
wall-clock timeout in seconds. -/
structure Env where
  which : String → Option String
  run : List String → Nat → RunOutcome

/-- The three distinct failure conditions of `compress_with_ghostscript`,
one per `raise` site in the source (each raised as a `RuntimeError` with a
distinct message; `toolExecutionError` carries the captured stdout and
stderr that the source interpolates verbatim into its message). -/
inductive CompressError where
  | toolUnavailable
  | toolTimeout
  | toolExecutionError (stdout stderr : String)
deriving DecidableEq

/-- The argument list `cmd` built by `compress_with_ghostscript`; the
quality string is interpolated verbatim into `-dPDFSETTINGS=/{quality}`. -/
def gs_cmd (gs input_pdf output_pdf quality : String) : List String :=
  [gs, "-sDEVICE=pdfwrite", "-dCompatibilityLevel=1.4",
   "-dPDFSETTINGS=/" ++ quality, "-dNOPAUSE", "-dQUIET", "-dBATCH",
   "-sOutputFile=" ++ output_pdf, input_pdf]

/-- Model of `compress_with_ghostscript`: locate the tool (failing with the
missing-tool error before any subprocess runs), then run the fixed command
with a 90-second timeout; timeout and non-zero exit become the other two
failure conditions. The second component is the trace of subprocess
commands spawned during the call. -/
def compress_with_ghostscript (env : Env) (input_pdf output_pdf quality : String) :
    Except CompressError Unit × List (List String) :=
  match find_ghostscript_exe env.which with
  | none => (.error .toolUnavailable, [])
  | some gs =>
    let cmd := gs_cmd gs input_pdf output_pdf quality
    match env.run cmd 90 with
    | .timedOut => (.error .toolTimeout, [cmd])
    | .completed code out err =>
      if code ≠ 0 then (.error (.toolExecutionError out err), [cmd])
      else (.ok (), [cmd])

/-- The HTTP handler's quality check (`app.py`, `process`): request
rejected unless `quality in {"screen", "ebook", "printer"}`. -/
def http_quality_allowed (q : String) : Bool :=
  q = "screen" || q = "ebook" || q = "printer"

/-- The CLI's `--quality` choices (`clean_pdf.py`, `main`):
`choices=["screen", "ebook", "printer", "prepress"]`. -/
def cli_quality_choices : List String := ["screen", "ebook", "printer", "prepress"]

/-! ### Helper lemmas -/

/-- The `clean_pdf` page loop computes the kept pages as a filter of the
input and its two counters as `countP` counts. -/
theorem classifyPages_eq (pages : List Page) :
    classifyPages pages =
      (pages.filter (fun p => !is_probably_blank_page p),
       pages.countP (fun p => is_probably_blank_page p),
       pages.countP (fun p => !is_probably_blank_page p)) := by
  induction pages with
  | nil => rfl
  | cons p rest ih =>
    by_cases hb : is_probably_blank_page p <;>
      simp [classifyPages, ih, hb]

/-- Folding `data += streamData c` over a list of streams appends the
concatenation of all stream payloads. -/
theorem foldl_streamData (cs : List StreamObj) (acc : List Nat) :
    cs.foldl (fun d c => d ++ streamData c) acc = acc ++ (cs.map streamData).flatten := by
  induction cs generalizing acc with
  | nil => simp
  | cons c cs ih => simp [ih, List.append_assoc]

/-- Streams whose decode raises contribute nothing: dropping them from the
list leaves the concatenated payload unchanged. -/
theorem flatten_map_filter_streamData (cs : List StreamObj) :
    ((cs.filter (fun c => ! c.failsDecode)).map streamData).flatten =
      (cs.map streamData).flatten := by
  induction cs with
  | nil => rfl
  | cons c cs ih =>
    cases c with
    | data bs =>
      rw [List.filter_cons,
        if_pos (show (!(StreamObj.data bs).failsDecode) = true from rfl)]
      simp only [List.map_cons, List.flatten_cons, streamData, ih]
    | noneData =>
      rw [List.filter_cons,
        if_pos (show (!StreamObj.noneData.failsDecode) = true from rfl)]
      simp only [List.map_cons, List.flatten_cons, streamData, ih]
    | raises =>
      rw [List.filter_cons,
        if_neg (show ¬(!StreamObj.raises.failsDecode) = true by decide)]
      simp only [List.map_cons, List.flatten_cons, streamData, List.nil_append, ih]

/-! ### Claims about the classifier and `clean_pdf` -/

/-- C1: the keep/drop decision follows the layered cascade: non-empty
trimmed extracted text always keeps the page; otherwise a declared XObject
resource keeps it; otherwise the page is dropped exactly when the trimmed
concatenated content-stream bytes are shorter than 30 bytes. -/
theorem blank_page_cascade (p : Page) :
    (pyStrip pyWsChar (safe_extract_text p) ≠ [] → is_probably_blank_page p = false) ∧
    (pyStrip pyWsChar (safe_extract_text p) = [] → has_xobject_images_or_forms p = true →
      is_probably_blank_page p = false) ∧
    (pyStrip pyWsChar (safe_extract_text p) = [] → has_xobject_images_or_forms p = false →
      (is_probably_blank_page p = true ↔
        (pyStrip pyWsByte (content_stream_bytes p)).length < 30)) := by
  refine ⟨fun h => ?_, fun h hx => ?_, fun h hx => ?_⟩
  · simp [is_probably_blank_page, h]
  · simp [is_probably_blank_page, h, hx]
  · unfold is_probably_blank_page
    rw [if_neg (by simp [h]), if_neg (by simp [hx])]
    by_cases hd : content_stream_bytes p = []
    · rw [if_pos hd, hd]
      simp [pyStrip]
    · rw [if_neg hd]
      by_cases h0 : (pyStrip pyWsByte (content_stream_bytes p)).length = 0
      · rw [if_pos h0]
        simp [h0]
      · rw [if_neg h0]
        by_cases h30 : (pyStrip pyWsByte (content_stream_bytes p)).length < 30 <;>
          simp [h30]

/-- A concrete page with only whitespace text, no XObject and a short
content stream, classified blank. -/
def pageShortStream : Page :=
  { extractText := .ok (some [' ', '\n']),
    xobject := .absent,
    contents := .ok (.single (.data [32, 113, 32])) }

/-- Witness for C1 at a concrete page. -/
theorem blank_page_cascade_witness :
    is_probably_blank_page pageShortStream = true :=
  ((blank_page_cascade pageShortStream).2.2 (by decide) (by decide)).mpr (by decide)

/-- C2: if classification would keep no page of a non-empty document, the
failsafe writes every original page with `removed = 0` and
`remaining = total`; consequently the output is never empty when the input
is non-empty. -/
theorem clean_pdf_failsafe (pages : List Page) (hpos : 0 < pages.length) :
    (pages.filter (fun p => !is_probably_blank_page p) = [] →
      clean_pdf pages = (pages, ⟨pages.length, 0, pages.length⟩)) ∧
    (clean_pdf pages).1 ≠ [] := by
  constructor
  · intro hfil
    have hk : pages.countP (fun p => !is_probably_blank_page p) = 0 := by
      rw [List.countP_eq_length_filter, hfil]; rfl
    simp [clean_pdf, classifyPages_eq, hk, hpos]
  · by_cases hk : pages.countP (fun p => !is_probably_blank_page p) = 0
    · simp only [clean_pdf, classifyPages_eq, hk, hpos, and_true, if_true]
      intro hnil
      rw [hnil] at hpos
      exact absurd hpos (by simp)
    · have : ¬(pages.countP (fun p => !is_probably_blank_page p) = 0 ∧ 0 < pages.length) := by
        intro hc; exact hk hc.1
      simp only [clean_pdf, classifyPages_eq, this, if_false]
      intro hnil
      rw [List.countP_eq_length_filter, hnil] at hk
      exact hk rfl

/-- A concrete page blank by every signal. -/
def pageAllBlank : Page :=
  { extractText := .raised, xobject := .absent, contents := .ok .noContents }

/-- Witness for C2 on the one-page all-blank document. -/
theorem clean_pdf_failsafe_witness :
    clean_pdf [pageAllBlank] = ([pageAllBlank], ⟨1, 0, 1⟩) ∧
      (clean_pdf [pageAllBlank]).1 ≠ [] :=
  ⟨(clean_pdf_failsafe [pageAllBlank] (by decide)).1 (by decide),
   (clean_pdf_failsafe [pageAllBlank] (by decide)).2⟩

/-- C3: the returned stats always satisfy `removed + remaining = total`,
with `total` the input page count. -/
theorem clean_stats_sum (pages : List Page) :
    (clean_pdf pages).2.removed + (clean_pdf pages).2.remaining =
      (clean_pdf pages).2.total ∧
    (clean_pdf pages).2.total = pages.length := by
  have hlen := List.length_eq_countP_add_countP
    (p := fun p => is_probably_blank_page p) (l := pages)
  simp only [clean_pdf, classifyPages_eq]
  split_ifs with hc
  · simp
  · refine ⟨?_, rfl⟩
    simp only [Bool.not_eq_true] at hlen
    rw [hlen]
    congr 1
    apply List.countP_congr
    intro a _
    simp

/-- C4: the output page list is a subsequence of the input: every output
page is an input page, none is duplicated, and relative order is kept. -/
theorem clean_pdf_sublist (pages : List Page) :
    List.Sublist (clean_pdf pages).1 pages := by
  simp only [clean_pdf, classifyPages_eq]
  split_ifs with hc
  · exact List.Sublist.refl pages
  · exact List.filter_sublist pages

/-- C5: the classifier is idempotent on its own output: rerunning
`clean_pdf` on the pages a first run wrote removes nothing, and the second
run's total is the first run's remaining count. -/
theorem clean_pdf_idempotent (pages : List Page) :
    (clean_pdf (clean_pdf pages).1).2.removed = 0 ∧
    (clean_pdf (clean_pdf pages).1).2.total = (clean_pdf pages).2.remaining := by
  by_cases hc : pages.countP (fun p => !is_probably_blank_page p) = 0 ∧ 0 < pages.length
  · have h1 : clean_pdf pages = (pages, ⟨pages.length, 0, pages.length⟩) := by
      simp [clean_pdf, classifyPages_eq, hc.1, hc.2]
    rw [h1]
    simp [clean_pdf, classifyPages_eq, hc.1, hc.2]
  · have h1 : clean_pdf pages =
        (pages.filter (fun p => !is_probably_blank_page p),
         ⟨pages.length, pages.countP (fun p => is_probably_blank_page p),
          pages.countP (fun p => !is_probably_blank_page p)⟩) := by
      simp only [clean_pdf, classifyPages_eq, hc, if_false]
    rw [h1]
    have hkeep : ∀ a ∈ pages.filter (fun p => !is_probably_blank_page p),
        (!is_probably_blank_page a) = true :=
      fun a ha => (List.mem_filter.mp ha).2
    have hcnt : (pages.filter (fun p => !is_probably_blank_page p)).countP
        (fun p => !is_probably_blank_page p) =
        (pages.filter (fun p => !is_probably_blank_page p)).length :=
      List.countP_eq_length.mpr hkeep
    have hblank : (pages.filter (fun p => !is_probably_blank_page p)).countP
        (fun p => is_probably_blank_page p) = 0 :=
      List.countP_eq_zero.mpr (fun a ha => by
        have hk := hkeep a ha
        simp only [Bool.not_eq_true'] at hk
        simp [hk])
    by_cases hz : (pages.filter (fun p => !is_probably_blank_page p)).length = 0
    · simp [clean_pdf, classifyPages_eq, hcnt, hblank, hz,
        List.countP_eq_length_filter]
    · have hnc : ¬((pages.filter (fun p => !is_probably_blank_page p)).countP
          (fun p => !is_probably_blank_page p) = 0 ∧
          0 < (pages.filter (fun p => !is_probably_blank_page p)).length) := by
        rw [hcnt]; omega
      simp [clean_pdf, classifyPages_eq, hnc, hblank, hcnt,
        List.countP_eq_length_filter]

/-- C6: per-page extraction failures are absorbed: a raising
`extract_text` is treated as empty text, a raising `get_data` on one
stream of a content list is skipped while the other streams are still
concatenated, and a raising `get_contents` yields empty bytes (every
branch is total: classification never propagates a failure). -/
theorem extraction_failures_absorbed (p : Page) (cs : List StreamObj) :
    (p.extractText = .raised → safe_extract_text p = []) ∧
    (p.contents = .ok (.contentList cs) →
      content_stream_bytes p =
        ((cs.filter (fun c => ! c.failsDecode)).map streamData).flatten) ∧
    (p.contents = .raised → content_stream_bytes p = []) := by
  refine ⟨fun h => ?_, fun h => ?_, fun h => ?_⟩
  · simp [safe_extract_text, h]
  · simp [content_stream_bytes, h, foldl_streamData, flatten_map_filter_streamData]
  · simp [content_stream_bytes, h]

/-- A page whose text extraction raises and whose content list has one
raising stream between two good ones. -/
def pageRaising : Page :=
  { extractText := .raised,
    xobject := .absent,
    contents := .ok (.contentList [.data [65, 66], .raises, .data [67]]) }

/-- Witness for C6: the raising extraction gives empty text and the
raising stream is skipped, leaving the good payloads concatenated. -/
theorem extraction_failures_absorbed_witness :
    safe_extract_text pageRaising = [] ∧
      content_stream_bytes pageRaising = [65, 66, 67] :=
  ⟨(extraction_failures_absorbed pageRaising
      [.data [65, 66], .raises, .data [67]]).1 rfl,
   ((extraction_failures_absorbed pageRaising
      [.data [65, 66], .raises, .data [67]]).2.1 rfl).trans (by decide)⟩

/-- C10: on the empty document `clean_pdf` succeeds, writes a zero-page
document and returns `{total := 0, removed := 0, remaining := 0}`; the
failsafe does not trigger. -/
theorem clean_pdf_empty_doc :
    clean_pdf ([] : List Page) =
      ([], { total := 0, removed := 0, remaining := 0 }) := by
  rfl

/-! ### Claims about the compressor invoker -/

/-- C7: when no candidate executable resolves on the search path, the call
fails with the missing-tool error, spawns no subprocess, and that error is
distinct from the timeout and execution-error conditions. -/
theorem compress_tool_unavailable (env : Env) (inp outp q : String)
    (h : ∀ c ∈ gs_candidates, env.which c = none) :
    compress_with_ghostscript env inp outp q =
      (.error .toolUnavailable, ([] : List (List String))) ∧
    CompressError.toolUnavailable ≠ CompressError.toolTimeout ∧
    (∀ out err, CompressError.toolUnavailable ≠ CompressError.toolExecutionError out err) := by
  have h1 : env.which "gs" = none := h "gs" (by simp [gs_candidates])
  have h2 : env.which "gswin64c" = none := h "gswin64c" (by simp [gs_candidates])
  have h3 : env.which "gswin32c" = none := h "gswin32c" (by simp [gs_candidates])
  refine ⟨?_, by decide, fun out err hne => CompressError.noConfusion hne⟩
  simp [compress_with_ghostscript, find_ghostscript_exe, gs_candidates,
    findFirstExe, h1, h2, h3]

/-- An environment where no executable resolves and every run times out. -/
def envNone : Env :=
  { which := fun _ => none, run := fun _ _ => .timedOut }

/-- Witness for C7 in an environment with an empty search path. -/
theorem compress_tool_unavailable_witness :
    compress_with_ghostscript envNone "in.pdf" "out.pdf" "ebook" =
      (.error .toolUnavailable, ([] : List (List String))) :=
  (compress_tool_unavailable envNone "in.pdf" "out.pdf" "ebook"
    (fun _ _ => rfl)).1

/-- C8: once the tool is found, a subprocess running past the 90-second
limit yields the timeout error (the call returns rather than hanging), and
a subprocess exiting non-zero yields the execution error carrying the
captured stdout and stderr verbatim. -/
theorem compress_timeout_and_exec_error (env : Env) (inp outp q gs : String)
    (hgs : find_ghostscript_exe env.which = some gs) :
    (env.run (gs_cmd gs inp outp q) 90 = .timedOut →
      compress_with_ghostscript env inp outp q =
        (.error .toolTimeout, [gs_cmd gs inp outp q])) ∧
    (∀ code out err, env.run (gs_cmd gs inp outp q) 90 = .completed code out err →
      code ≠ 0 →
      compress_with_ghostscript env inp outp q =
        (.error (.toolExecutionError out err), [gs_cmd gs inp outp q])) := by
  constructor
  · intro hr
    simp [compress_with_ghostscript, hgs, hr]
  · intro code out err hr hc
    simp [compress_with_ghostscript, hgs, hr, hc]

/-- An environment where only `gs` resolves and every run times out. -/
def envTimeout : Env :=
  { which := fun c => if c = "gs" then some "/usr/bin/gs" else none,
    run := fun _ _ => .timedOut }

/-- Witness for C8: in `envTimeout` the call returns the timeout error. -/
theorem compress_timeout_and_exec_error_witness :
    compress_with_ghostscript envTimeout "a.pdf" "b.pdf" "screen" =
      (.error .toolTimeout, [gs_cmd "/usr/bin/gs" "a.pdf" "b.pdf" "screen"]) :=
  (compress_timeout_and_exec_error envTimeout "a.pdf" "b.pdf" "screen"
    "/usr/bin/gs" (by decide)).1 rfl

/-- C9: the core performs no validation of the quality string: any string
is interpolated verbatim into `-dPDFSETTINGS=/{q}` and the subprocess is
spawned with that argument; rejection happens only in the calling layers —
the HTTP handler allows exactly the CLI's choices minus `prepress`. -/
theorem compress_quality_unvalidated (env : Env) (inp outp gs : String)
    (hgs : find_ghostscript_exe env.which = some gs) :
    ∀ q : String,
      ("-dPDFSETTINGS=/" ++ q) ∈ gs_cmd gs inp outp q ∧
      (compress_with_ghostscript env inp outp q).2 = [gs_cmd gs inp outp q] ∧
      (http_quality_allowed q = true ↔ (q ∈ cli_quality_choices ∧ q ≠ "prepress")) := by
  intro q
  refine ⟨by simp [gs_cmd], ?_, ?_⟩
  · rcases henv : env.run (gs_cmd gs inp outp q) 90 with _ | ⟨code, out, err⟩
    · simp [compress_with_ghostscript, hgs, henv]
    · by_cases hcode : code = 0 <;>
        simp [compress_with_ghostscript, hgs, henv, hcode]
  · constructor
    · intro hq
      have hq2 : q = "screen" ∨ q = "ebook" ∨ q = "printer" := by
        simpa [http_quality_allowed, or_assoc] using hq
      rcases hq2 with h | h | h <;> subst h <;> exact ⟨by decide, by decide⟩
    · rintro ⟨hin, hne⟩
      have hin2 : q = "screen" ∨ q = "ebook" ∨ q = "printer" ∨ q = "prepress" := by
        simpa [cli_quality_choices] using hin
      rcases hin2 with h | h | h | h <;> subst h <;>
        first
        | decide
        | exact absurd rfl hne

/-- Witness for C9 at the out-of-enum quality string `"weird"`. -/
theorem compress_quality_unvalidated_witness :
    ("-dPDFSETTINGS=/" ++ "weird") ∈ gs_cmd "/usr/bin/gs" "a.pdf" "b.pdf" "weird" ∧
    (compress_with_ghostscript envTimeout "a.pdf" "b.pdf" "weird").2 =
      [gs_cmd "/usr/bin/gs" "a.pdf" "b.pdf" "weird"] ∧
    (http_quality_allowed "weird" = true ↔
      ("weird" ∈ cli_quality_choices ∧ "weird" ≠ "prepress")) :=
  compress_quality_unvalidated envTimeout "a.pdf" "b.pdf" "/usr/bin/gs"
    (by decide) "weird"

end PdfCleaner
